import Mathlib

/-!
Verification of the temporal state & attribute resolution engine of the
russian-railway-history-viewer repository (src/src/components/DatabaseContext.tsx).

The embedding models, over plain Lean lists and integers:
* the station-state SQL query of `queryDataForYear` (lines 332-373): per-station
  aggregation of lifecycle event years and the CASE expression deriving the state label;
* the segment-state SQL query of `queryDataForYear` (lines 405-448);
* `buildAltNameMap` (lines 112-129);
* `normalizeGeometry` (lines 131-173) over a small JavaScript-value type.

Dates are represented by their extracted calendar year (the SQL only ever uses
EXTRACT(YEAR FROM CAST(date AS DATE))); SQL NULL becomes `Option`.
-/

/-- The closed state enumeration of `StationWithState`/`SegmentWithState`. -/
inductive RState where
  | planned
  | existing
  | new
  | electrified
  | gauge_change
  | closed
deriving DecidableEq

/-- A lifecycle event row. `date` is modelled by its extracted calendar year
(`EXTRACT(YEAR FROM CAST(e.date AS DATE))`); the `station_id`/`segment_id`
columns are nullable. -/
structure Event where
  event_id : String
  event_type : String
  year : Int
  station_id : Option String
  segment_id : Option String
deriving DecidableEq

/-- A row of the `stations` table as seen by the year query. Only the columns the
query logic reads are modelled (`lat`, `lon`, `current_status`, `created_at`);
the remaining columns are presentation-only pass-through. `created_at` is
modelled by its extracted calendar year; it is NULL iff the year is `none`. -/
structure RawStation where
  station_id : String
  lat : Option Rat
  lon : Option Rat
  current_status : Option String
  created_at_year : Option Int
deriving DecidableEq

/-- The greatest element of a list of years, `none` when empty
(SQL `MAX` aggregate over the group). -/
def maxYear? : List Int → Option Int
  | [] => none
  | y :: ys =>
    some (match maxYear? ys with
          | none => y
          | some m => max y m)

/-- The least element of a list of years, `none` when empty
(SQL `MIN` aggregate over the group). -/
def minYear? : List Int → Option Int
  | [] => none
  | y :: ys =>
    some (match minYear? ys with
          | none => y
          | some m => min y m)

/-- Station query, `station_events` CTE: `MAX(CASE WHEN e.event_type = 'station_open'
THEN year END)` over the events joined on `s.station_id = e.station_id`.
Note: the station open/close aggregates are NOT restricted to years at or
before the query year (only the electrification aggregate is). -/
def stationOpenYear (st : RawStation) (evs : List Event) : Option Int :=
  maxYear? ((evs.filter (fun e =>
    e.station_id == some st.station_id && e.event_type == "station_open")).map (fun e => e.year))

/-- Station query: `MAX(CASE WHEN e.event_type = 'station_close' THEN year END)`. -/
def stationCloseYear (st : RawStation) (evs : List Event) : Option Int :=
  maxYear? ((evs.filter (fun e =>
    e.station_id == some st.station_id && e.event_type == "station_close")).map (fun e => e.year))

/-- Station query: `MAX(CASE WHEN e.event_type = 'electrification' AND year <= query
THEN year END)`. -/
def stationElectrifiedYear (st : RawStation) (evs : List Event) (year : Int) : Option Int :=
  maxYear? ((evs.filter (fun e =>
    e.station_id == some st.station_id && e.event_type == "electrification"
      && decide (e.year ≤ year))).map (fun e => e.year))

/-- Station query: `COALESCE(se.open_year, CAST(EXTRACT(YEAR FROM CAST(se.created_at
AS DATE)) AS INTEGER), 99999)`. -/
def effectiveOpenYear (st : RawStation) (evs : List Event) : Int :=
  match stationOpenYear st evs, st.created_at_year with
  | some y, _ => y
  | none, some y => y
  | none, none => 99999

/-- SQL condition `o IS NOT NULL AND o < year`. -/
def closeLt (o : Option Int) (year : Int) : Bool :=
  match o with
  | some c => decide (c < year)
  | none => false

/-- The CASE expression of the `station_state` CTE (lines 348-357): the station
resolver. `none` models the NULL label, i.e. exclusion from the result set. -/
def stationStateLabel (st : RawStation) (evs : List Event) (year : Int) : Option RState :=
  if stationOpenYear st evs = none ∧ st.created_at_year = none then some RState.planned
  else if effectiveOpenYear st evs > year then some RState.planned
  else if closeLt (stationCloseYear st evs) year then none
  else if stationCloseYear st evs = some year then some RState.closed
  else if st.current_status = some "closed" then some RState.closed
  else if stationElectrifiedYear st evs year = some year then some RState.electrified
  else if stationOpenYear st evs = some year then some RState.new
  else some RState.existing

/-- A JavaScript value, as far as `normalizeGeometry` and `buildAltNameMap` inspect
one. Objects are insertion-ordered key/value lists (the modelled inputs carry no
duplicate keys). `jnan` stands for a non-finite number (NaN or an infinity). -/
inductive JSValue where
  | jnull
  | jundefined
  | jbool (b : Bool)
  | jnum (q : Rat)
  | jnan
  | jstr (s : String)
  | jarr (elems : List JSValue)
  | jobj (fields : List (String × JSValue))

/-- JavaScript truthiness. Both NaN and the infinities are collapsed into `jnan`;
NaN is falsy while the infinities are truthy, but `normalizeGeometry` sends a
non-finite top-level number to `[]` along either route, and `jnan` never occurs
in any other boolean position of the modelled code. -/
def truthy : JSValue → Bool
  | .jnull => false
  | .jundefined => false
  | .jbool b => b
  | .jnum q => decide (q ≠ 0)
  | .jnan => false
  | .jstr s => decide (s ≠ "")
  | .jarr _ => true
  | .jobj _ => true

/-- JavaScript property access `v[k]`: the first binding of the key in an object,
`undefined` for a missing key or a non-object receiver. -/
def getProp (v : JSValue) (k : String) : JSValue :=
  match v with
  | .jobj kvs =>
    match kvs.find? (fun kv => kv.1 == k) with
    | some kv => kv.2
    | none => .jundefined
  | _ => .jundefined

/-- `Array.isArray`. -/
def isArr : JSValue → Bool
  | .jarr _ => true
  | _ => false

/-- JavaScript `v[0]` on an array; `undefined` otherwise. -/
def firstElem : JSValue → JSValue
  | .jarr (v :: _) => v
  | _ => .jundefined

/-- Key presence test, JavaScript `k in obj`. -/
def hasKey (kvs : List (String × JSValue)) (k : String) : Bool :=
  kvs.any (fun kv => kv.1 == k)

/-- Strict equality of a value against a string literal (`v === "..."`). -/
def isStrEq (v : JSValue) (s : String) : Bool :=
  match v with
  | .jstr t => t == s
  | _ => false

/-- Value of a digit string, `none` if a non-digit occurs (accumulating left to
right in base 10). -/
def digitsVal? (cs : List Char) : Option Nat :=
  cs.foldl
    (fun acc c =>
      match acc with
      | none => none
      | some n => if c.isDigit then some (n * 10 + (c.toNat - 48)) else none)
    (some 0)

/-- Decimal numeral without sign: `123`, `123.45`, `.5`, `5.`; `none` otherwise.
Used to model JavaScript `Number()` on strings. -/
def parseDecimal? (cs : List Char) : Option Rat :=
  let intPart := cs.takeWhile (fun c => c.isDigit)
  let rest := cs.dropWhile (fun c => c.isDigit)
  match rest with
  | [] =>
    if intPart.isEmpty then none
    else (digitsVal? intPart).map (fun n => (n : Rat))
  | '.' :: fr =>
    if fr.all (fun c => c.isDigit) && decide (0 < intPart.length + fr.length) then
      match digitsVal? intPart, digitsVal? fr with
      | some i, some f => some ((i : Rat) + (f : Rat) / ((10 : Rat) ^ fr.length))
      | _, _ => none
    else none
  | _ => none

/-- JavaScript `Number()` applied to a string: whitespace-trimmed, empty means 0,
otherwise an optionally signed decimal numeral; `none` models NaN. Exotic forms
(hex, exponents, "Infinity") are not modelled and map to NaN; no modelled input
relies on them. -/
def jsStringToNumber (s : String) : Option Rat :=
  match s.trim.toList with
  | [] => some 0
  | '-' :: rest => (parseDecimal? rest).map (fun q => -q)
  | '+' :: rest => parseDecimal? rest
  | cs => parseDecimal? cs

/-- JavaScript `Number(String(v))` for the single element of a one-element array
(`Number([v])` stringifies the element). Nested arrays/objects are modelled as
NaN; no modelled input places them inside a coordinate component. -/
def toNumberElem : JSValue → Option Rat
  | .jnum q => some q
  | .jnull => some 0
  | .jundefined => some 0
  | .jstr s => jsStringToNumber s
  | _ => none

/-- JavaScript `Number(v)`; `some q` is the finite number `q` and `none` models a
non-finite result, so that `Number.isFinite` becomes `Option.isSome`. -/
def toNumber : JSValue → Option Rat
  | .jnum q => some q
  | .jnan => none
  | .jnull => some 0
  | .jundefined => none
  | .jbool b => some (if b then 1 else 0)
  | .jstr s => jsStringToNumber s
  | .jobj _ => none
  | .jarr [] => some 0
  | .jarr [v] => toNumberElem v
  | .jarr _ => none

/-- The per-element map step of `normalizeGeometry` (lines 158-171): an array
element yields `[Number(pair[0]), Number(pair[1])]`, a truthy object is probed
for `f0`/`f1` then `lat`/`lon` keys, anything else yields `[NaN, NaN]`. -/
def pairNums (p : JSValue) : Option Rat × Option Rat :=
  match p with
  | .jarr l => (toNumber (l.getD 0 .jundefined), toNumber (l.getD 1 .jundefined))
  | .jobj kvs =>
    if hasKey kvs "f0" && hasKey kvs "f1" then
      (toNumber (getProp (.jobj kvs) "f0"), toNumber (getProp (.jobj kvs) "f1"))
    else if hasKey kvs "lat" && hasKey kvs "lon" then
      (toNumber (getProp (.jobj kvs) "lat"), toNumber (getProp (.jobj kvs) "lon"))
    else (none, none)
  | _ => (none, none)

/-- Map step fused with the `Number.isFinite` filter (line 172): an element
survives exactly when both components coerce to finite numbers. -/
def keepPair (p : JSValue) : Option (Rat × Rat) :=
  match pairNums p with
  | (some a, some b) => some (a, b)
  | _ => none

/-- Condition of line 146: `data.type === 'Feature' && data.geometry`. -/
def featureCond (kvs : List (String × JSValue)) : Bool :=
  isStrEq (getProp (.jobj kvs) "type") "Feature" && truthy (getProp (.jobj kvs) "geometry")

/-- Condition of line 148: `data.type === 'FeatureCollection' &&
Array.isArray(data.features) && data.features[0]?.geometry`. -/
def fcCond (kvs : List (String × JSValue)) : Bool :=
  isStrEq (getProp (.jobj kvs) "type") "FeatureCollection"
    && isArr (getProp (.jobj kvs) "features")
    && truthy (getProp (firstElem (getProp (.jobj kvs) "features")) "geometry")

/-- Condition of line 150: `data.type && data.coordinates`. -/
def bareCond (kvs : List (String × JSValue)) : Bool :=
  truthy (getProp (.jobj kvs) "type") && truthy (getProp (.jobj kvs) "coordinates")

/-- The GeoJSON unwrap block of `normalizeGeometry` (lines 145-153), an if-chain
run only on non-array objects. -/
def unwrapDoc (data : JSValue) : JSValue :=
  match data with
  | .jobj kvs =>
    if featureCond kvs then getProp (getProp (.jobj kvs) "geometry") "coordinates"
    else if fcCond kvs then
      getProp (getProp (firstElem (getProp (.jobj kvs) "features")) "geometry") "coordinates"
    else if bareCond kvs then getProp (.jobj kvs) "coordinates"
    else .jobj kvs
  | v => v

/-- `normalizeGeometry` (lines 131-173) on an already-structured value: falsy
input yields `[]`, a non-array object is unwrapped, then a non-array yields `[]`
and an array is mapped and filtered element-wise. The JSON.parse branch for a
string-typed `raw` (lines 136-142) is outside this embedding; every claim feeds
structured values, and a string that survives to the array check yields `[]`
here exactly as in the source. -/
def normalizeGeometry (raw : JSValue) : List (Rat × Rat) :=
  if truthy raw = false then []
  else
    match unwrapDoc raw with
    | .jarr l => l.filterMap keepPair
    | _ => []

/-- A row of the `segments` table. The query serializes `geometry` to VARCHAR and
the client re-parses it; that round-trip is modelled by carrying the structured
geometry value directly. -/
structure RawSegment where
  segment_id : String
  from_station_id : String
  to_station_id : String
  geometry : JSValue

/-- Segment query, `open_years` CTE (lines 409-414): `MIN(year)` over the
segment's `segment_open` events — the earliest opening, with no at-or-before
restriction. -/
def segOpenYear (sg : RawSegment) (evs : List Event) : Option Int :=
  minYear? ((evs.filter (fun e =>
    e.segment_id == some sg.segment_id && e.event_type == "segment_open")).map (fun e => e.year))

/-- Segment query, `close_years` CTE (lines 415-420): `MIN(year)` over the
segment's `segment_close` events. -/
def segCloseYear (sg : RawSegment) (evs : List Event) : Option Int :=
  minYear? ((evs.filter (fun e =>
    e.segment_id == some sg.segment_id && e.event_type == "segment_close")).map (fun e => e.year))

/-- Segment query, `electrified_years` CTE (lines 421-426): `MAX(year)` over
electrification events with year at or before the query year. -/
def segElectrifiedYear (sg : RawSegment) (evs : List Event) (year : Int) : Option Int :=
  maxYear? ((evs.filter (fun e =>
    e.segment_id == some sg.segment_id && e.event_type == "electrification"
      && decide (e.year ≤ year))).map (fun e => e.year))

/-- The CASE expression of the segment query (lines 436-443): the segment
resolver. `none` models the NULL label; rows with a NULL label are dropped by
the client-side filter (line 453). -/
def segStateLabel (sg : RawSegment) (evs : List Event) (year : Int) : Option RState :=
  if year < (segOpenYear sg evs).getD 0 then some RState.planned
  else if closeLt (segCloseYear sg evs) year then none
  else if segCloseYear sg evs = some year then some RState.closed
  else if segElectrifiedYear sg evs year = some year then some RState.electrified
  else if segOpenYear sg evs ≠ none ∧ segOpenYear sg evs = some year then some RState.new
  else some RState.existing

/-- A raw (name, language) record handed to `buildAltNameMap`; either field may
be absent. -/
structure NameEntry where
  name : Option String
  language : Option String
deriving DecidableEq

/-- JavaScript falsiness of an optional string field: absent or empty. -/
def falsyStr : Option String → Bool
  | none => true
  | some s => s == ""

/-- Recursion of `buildAltNameMap` (lines 118-126) with the running `langCounts`
map carried as a function. Each kept record bumps its language's count; the
first record of a language gets no suffix, later ones get `_<count-1>`. -/
def buildAltNameMapAux : List NameEntry → (String → Nat) → List (String × String)
  | [], _ => []
  | e :: rest, counts =>
    if falsyStr e.name || falsyStr e.language then buildAltNameMapAux rest counts
    else
      match e.name, e.language with
      | some n, some l =>
        ("name:" ++ l ++ (if counts l + 1 > 1 then "_" ++ toString (counts l) else ""), n)
          :: buildAltNameMapAux rest (fun x => if x = l then counts l + 1 else counts x)
      | _, _ => buildAltNameMapAux rest counts

/-- `buildAltNameMap` (lines 112-129). The JavaScript result object is modelled
as its insertion-ordered key/value list; the modelled inputs produce no
duplicate keys. -/
def buildAltNameMap (names : List NameEntry) : List (String × String) :=
  buildAltNameMapAux names (fun _ => 0)

/-- Spec-side key format: `name:<language>` for the first record of a language,
`name:<language>_<n>` for the n-th subsequent one. -/
def specKey (l : String) (k : Nat) : String :=
  "name:" ++ l ++ (if k = 0 then "" else "_" ++ toString k)

/-- Spec-side: the records that are not skipped — both fields present and
non-empty — as (name, language) pairs in input order. -/
def keptPairs (names : List NameEntry) : List (String × String) :=
  names.filterMap (fun e =>
    match e.name, e.language with
    | some n, some l => if n = "" ∨ l = "" then none else some (n, l)
    | _, _ => none)

/-- Spec-side aggregation, following the claim's words: each kept record gets the
key determined by how many earlier kept records share its language (`seen` is
the list of records already processed). -/
def specAssign : List (String × String) → List (String × String) → List (String × String)
  | [], _ => []
  | (n, l) :: rest, seen =>
    (specKey l (seen.countP (fun p => p.2 == l)), n) :: specAssign rest (seen ++ [(n, l)])

/-- A row of the `station_names` table; all three columns are nullable. -/
structure NameRow where
  station_id : Option String
  name : Option String
  language : Option String
deriving DecidableEq

/-- The `station_names_agg` CTE (lines 360-368) narrowed to one station, composed
with the client-side zip of the `names`/`languages` lists back into records
(lines 398-402): the station's rows with all columns non-NULL, in input order. -/
def namesFor (sid : String) (rows : List NameRow) : List NameEntry :=
  (rows.filter (fun r =>
    r.station_id == some sid && !(r.name == none) && !(r.language == none))).map
    (fun r => { name := r.name, language := r.language })

/-- A resolved station as returned by `queryDataForYear`. Only the fields the
claims speak about are carried; `lat`/`lon` stay `Option` to state the
coordinate-presence invariant (the source reads them with `Number(row.lat)`
after the SQL NULL filter). -/
structure StationWithState where
  station_id : String
  lat : Option Rat
  lon : Option Rat
  current_status : Option String
  state : RState
  alternative_names : List (String × String)
deriving DecidableEq

/-- A resolved segment as returned by `queryDataForYear`. -/
structure SegmentWithState where
  segment_id : String
  from_station_id : String
  to_station_id : String
  geometry : List (Rat × Rat)
  state : RState

/-- The station half of `queryDataForYear` (lines 332-403): stations with
non-NULL coordinates are resolved, rows with a NULL state label are dropped
(`WHERE ss.state_label IS NOT NULL`), and the alternate-name map is attached. -/
def queryStationsForYear (stations : List RawStation) (evs : List Event)
    (names : List NameRow) (year : Int) : List StationWithState :=
  (stations.filter (fun s => s.lat.isSome && s.lon.isSome)).filterMap (fun s =>
    match stationStateLabel s evs year with
    | none => none
    | some st =>
      some { station_id := s.station_id, lat := s.lat, lon := s.lon,
             current_status := s.current_status, state := st,
             alternative_names := buildAltNameMap (namesFor s.station_id names) })

/-- The segment half of `queryDataForYear` (lines 405-464): every segment is
resolved and rows with a NULL state label are dropped by the client-side
`filter(Boolean(row.state_label))`. -/
def querySegmentsForYear (segments : List RawSegment) (evs : List Event)
    (year : Int) : List SegmentWithState :=
  segments.filterMap (fun sg =>
    match segStateLabel sg evs year with
    | none => none
    | some st =>
      some { segment_id := sg.segment_id, from_station_id := sg.from_station_id,
             to_station_id := sg.to_station_id,
             geometry := normalizeGeometry sg.geometry, state := st })

/-- Claim-side encoding of a coordinate pair as a plain 2-element array. -/
def flatPairEnc (p : Rat × Rat) : JSValue :=
  .jarr [.jnum p.1, .jnum p.2]

/-- Claim-side encoding of a path as a flat list of pair arrays. -/
def flatPairs (ps : List (Rat × Rat)) : JSValue :=
  .jarr (ps.map flatPairEnc)

/-- Claim-side encoding of a pair as a keyed record with positional keys. -/
def keyedPairEncF (p : Rat × Rat) : JSValue :=
  .jobj [("f0", .jnum p.1), ("f1", .jnum p.2)]

/-- Claim-side encoding of a path as a list of `f0`/`f1` records. -/
def keyedPairsF (ps : List (Rat × Rat)) : JSValue :=
  .jarr (ps.map keyedPairEncF)

/-- Claim-side encoding of a pair as a keyed record with geographic keys. -/
def keyedPairEncGeo (p : Rat × Rat) : JSValue :=
  .jobj [("lat", .jnum p.1), ("lon", .jnum p.2)]

/-- Claim-side encoding of a path as a list of `lat`/`lon` records. -/
def keyedPairsGeo (ps : List (Rat × Rat)) : JSValue :=
  .jarr (ps.map keyedPairEncGeo)

/-- Claim-side encoding of a path as a wrapped single-feature GeoJSON document. -/
def wrappedFeature (ps : List (Rat × Rat)) : JSValue :=
  .jobj [("type", .jstr "Feature"),
         ("geometry", .jobj [("type", .jstr "LineString"), ("coordinates", flatPairs ps)])]

/-- Helper building a station-owned event. -/
def mkStEvent (eid ty sid : String) (y : Int) : Event :=
  { event_id := eid, event_type := ty, year := y, station_id := some sid, segment_id := none }

/-- Helper building a segment-owned event. -/
def mkSegEvent (eid ty sid : String) (y : Int) : Event :=
  { event_id := eid, event_type := ty, year := y, station_id := none, segment_id := some sid }

/-- Event history of the C3 scenario: one opening and two closings of the same
segment. -/
def twoCloseEvents (sid : String) (o y1 y2 : Int) : List Event :=
  [mkSegEvent "E1" "segment_open" sid o,
   mkSegEvent "E2" "segment_close" sid y1,
   mkSegEvent "E3" "segment_close" sid y2]

/-- Station with coordinates, status `open`, no `created_at`. -/
def exStationC1 : RawStation :=
  { station_id := "S1", lat := some 1, lon := some 2,
    current_status := some "open", created_at_year := none }

/-- Two opening events for the same station, one before and one after the query
year 2000. -/
def exEventsC1 : List Event :=
  [mkStEvent "E1" "station_open" "S1" 1900, mkStEvent "E2" "station_open" "S1" 2050]

/-- Station whose opening events all lie before the query year. -/
def exStationC1w : RawStation :=
  { station_id := "S1w", lat := some 1, lon := some 2,
    current_status := some "open", created_at_year := none }

/-- A single early opening event for `exStationC1w`. -/
def exEventsC1w : List Event :=
  [mkStEvent "E1" "station_open" "S1w" 1900]

/-- Segment with an empty event history. -/
def exSegC2 : RawSegment :=
  { segment_id := "SEG2", from_station_id := "A", to_station_id := "B", geometry := .jarr [] }

/-- Segment for the C3 two-closings scenario. -/
def exSegC3 : RawSegment :=
  { segment_id := "SEG3", from_station_id := "A", to_station_id := "B", geometry := .jarr [] }

/-- Station with a close event but no open event and no `created_at`. -/
def exStationC4 : RawStation :=
  { station_id := "S4", lat := some 1, lon := some 2,
    current_status := some "open", created_at_year := none }

/-- A lone closing event for `exStationC4`, dated before the query year. -/
def exEventsC4 : List Event :=
  [mkStEvent "E1" "station_close" "S4" 1900]

/-- Station for the closure-dominance witness: opened 1900, closed 1950. -/
def exStationC4w : RawStation :=
  { station_id := "S4w", lat := some 1, lon := some 2,
    current_status := some "open", created_at_year := none }

/-- Opening and closing events for `exStationC4w`. -/
def exEventsC4w : List Event :=
  [mkStEvent "E1" "station_open" "S4w" 1900, mkStEvent "E2" "station_close" "S4w" 1950]

/-- Segment for the closure-dominance witness. -/
def exSegC4w : RawSegment :=
  { segment_id := "SEG4w", from_station_id := "A", to_station_id := "B", geometry := .jarr [] }

/-- Opening and closing events for `exSegC4w`. -/
def exEventsC4ws : List Event :=
  [mkSegEvent "E1" "segment_open" "SEG4w" 1900, mkSegEvent "E2" "segment_close" "SEG4w" 1950]

/-- Station with `current_status = "closed"`, an 1900 opening, and no closing. -/
def exStationC8 : RawStation :=
  { station_id := "S8", lat := some 1, lon := some 2,
    current_status := some "closed", created_at_year := none }

/-- The lone opening event of `exStationC8`. -/
def exEventsC8 : List Event :=
  [mkStEvent "E1" "station_open" "S8" 1900]

/-- Station used by the coordinate-presence witness. -/
def exStationC10 : RawStation :=
  { station_id := "S10", lat := some 1, lon := some 2,
    current_status := some "open", created_at_year := none }

/-- The lone opening event of `exStationC10`. -/
def exEventsC10 : List Event :=
  [mkStEvent "E1" "station_open" "S10" 1900]

/-- The resolved row produced for `exStationC10` at year 2000. -/
def exResolvedC10 : StationWithState :=
  { station_id := "S10", lat := some 1, lon := some 2,
    current_status := some "open", state := RState.existing, alternative_names := [] }

theorem maxYear?_mem {ys : List Int} {m : Int} (h : maxYear? ys = some m) : m ∈ ys := by
  induction ys with
  | nil => simp [maxYear?] at h
  | cons y t ih =>
    rw [maxYear?] at h
    simp only [Option.some.injEq] at h
    cases hm : maxYear? t with
    | none => rw [hm] at h; simp only [List.mem_cons]; left; exact h.symm
    | some m' =>
      rw [hm] at h
      dsimp only at h
      rcases max_choice y m' with hc | hc
      · rw [hc] at h; simp [← h]
      · rw [hc] at h; subst h; exact List.mem_cons_of_mem _ (ih hm)

/-- C9 (confirmed): resolution is total — for every entity and year the resolver
yields exactly one of the five producible states or exclusion (`none`), and
`gauge_change` is never produced by either resolver. -/
theorem resolver_totality_no_gauge_change (st : RawStation) (sg : RawSegment)
    (evs : List Event) (year : Int) :
    (stationStateLabel st evs year = none ∨ stationStateLabel st evs year = some RState.planned
      ∨ stationStateLabel st evs year = some RState.closed
      ∨ stationStateLabel st evs year = some RState.electrified
      ∨ stationStateLabel st evs year = some RState.new
      ∨ stationStateLabel st evs year = some RState.existing) ∧
    stationStateLabel st evs year ≠ some RState.gauge_change ∧
    (segStateLabel sg evs year = none ∨ segStateLabel sg evs year = some RState.planned
      ∨ segStateLabel sg evs year = some RState.closed
      ∨ segStateLabel sg evs year = some RState.electrified
      ∨ segStateLabel sg evs year = some RState.new
      ∨ segStateLabel sg evs year = some RState.existing) ∧
    segStateLabel sg evs year ≠ some RState.gauge_change := by
  refine ⟨?_, ?_, ?_, ?_⟩ <;>
    simp only [stationStateLabel, segStateLabel] <;> split_ifs <;> simp

/-- C8 (confirmed): a station with some open event, all qualifying (maximum open
year at or before the query year), no close event, and `current_status` equal to
`"closed"` resolves to `closed` — the manual status override fires below the
hard close rules and above electrified/new/existing. -/
theorem status_override_closed (st : RawStation) (evs : List Event) (year m : Int)
    (hopen : stationOpenYear st evs = some m) (hm : m ≤ year)
    (hclose : stationCloseYear st evs = none)
    (hstatus : st.current_status = some "closed") :
    stationStateLabel st evs year = some RState.closed := by
  have heff : effectiveOpenYear st evs = m := by unfold effectiveOpenYear; rw [hopen]
  unfold stationStateLabel
  rw [hopen, hclose, hstatus, heff]
  split_ifs with h1 h2 h3 h4 h5 <;> first
    | rfl
    | omega
    | simp_all [closeLt]

/-- Witness for C8: the spec scenario — open event 1900, no close event,
`current_status = "closed"`, queried for 2020 — resolves to `closed`. -/
theorem status_override_closed_witness :
    stationStateLabel exStationC8 exEventsC8 2020 = some RState.closed :=
  status_override_closed exStationC8 exEventsC8 2020 1900 (by decide) (by decide)
    (by decide) (by decide)

/-- Counterexample to C1 as stated: `exStationC1` has a `station_open` event in
1900 ≤ 2000, yet because it also has one in 2050 the station query's
`open_year` is 2050 (MAX over all open events, not only those at or before the
query year) and the resolver returns `planned` for the year 2000. -/
theorem later_open_event_forces_planned_cex :
    (∃ e ∈ exEventsC1, e.event_type = "station_open" ∧
      e.station_id = some exStationC1.station_id ∧ e.year ≤ 2000) ∧
    stationStateLabel exStationC1 exEventsC1 2000 = some RState.planned := by decide

/-- C1 (corrected): the station query takes `open_year` as the maximum
`station_open` year over ALL of the station's events, with no at-or-before
restriction. When every `station_open` year is at or before the query year (and
at least one open event exists), the resolver indeed never returns `planned`;
but a single later open event past the query year flips the station back to
`planned` (see the counterexample). -/
theorem all_opens_at_or_before_not_planned (st : RawStation) (evs : List Event) (year : Int)
    (hne : stationOpenYear st evs ≠ none)
    (hall : ∀ e ∈ evs, e.station_id = some st.station_id → e.event_type = "station_open" →
      e.year ≤ year) :
    stationStateLabel st evs year ≠ some RState.planned := by
  obtain ⟨m, hm⟩ := Option.ne_none_iff_exists'.mp hne
  have hm' : maxYear? ((evs.filter (fun e =>
      e.station_id == some st.station_id && e.event_type == "station_open")).map
        (fun e => e.year)) = some m := hm
  have hmem := maxYear?_mem hm'
  simp only [List.mem_map, List.mem_filter, Bool.and_eq_true, beq_iff_eq] at hmem
  obtain ⟨e, ⟨hein, hesid, hety⟩, hey⟩ := hmem
  have hmy : m ≤ year := hey ▸ hall e hein hesid hety
  have heff : effectiveOpenYear st evs = m := by unfold effectiveOpenYear; rw [hm]
  unfold stationStateLabel
  rw [hm, heff]
  split_ifs with h1 h2 h3 h4 h5 h6 h7 <;> simp_all <;> omega

/-- Witness for the corrected C1: a station whose only open event is dated 1900
is not `planned` in 2000. -/
theorem all_opens_at_or_before_not_planned_witness :
    stationStateLabel exStationC1w exEventsC1w 2000 ≠ some RState.planned :=
  all_opens_at_or_before_not_planned exStationC1w exEventsC1w 2000 (by decide) (by decide)

/-- Counterexample to C2 as stated: a segment with no events at all resolves to
`existing` (is included), not `planned`, at year 2000 — the segment query
coalesces a missing open year to 0, so `year < COALESCE(open_year, 0)` fails
for every non-negative year. -/
theorem segment_no_open_resolves_existing_cex :
    segStateLabel exSegC2 [] 2000 = some RState.existing ∧
    segStateLabel exSegC2 [] 2000 ≠ some RState.planned := by decide

/-- C2 (corrected): a segment with no `segment_open` event is `planned` exactly
when the query year is negative (the missing open year is coalesced to 0); for
any year ≥ 0 such a segment is never `planned` — with no close events it comes
out `existing` rather than being reported as planned or silently absent. -/
theorem segment_no_open_planned_iff_neg_year (sg : RawSegment) (evs : List Event) (year : Int)
    (h : segOpenYear sg evs = none) :
    (segStateLabel sg evs year = some RState.planned ↔ year < 0) := by
  unfold segStateLabel
  rw [h]
  simp only [Option.getD_none]
  split_ifs with h1 h2 h3 h4 h5 <;> simp_all

/-- Witness for the corrected C2: the eventless segment is `planned` at 2000 iff
2000 < 0 (i.e. it is not planned). -/
theorem segment_no_open_planned_iff_neg_year_witness :
    (segStateLabel exSegC2 [] 2000 = some RState.planned ↔ (2000 : Int) < 0) :=
  segment_no_open_planned_iff_neg_year exSegC2 [] 2000 (by decide)

/-- Counterexample to C3 as stated: a segment opened 1900 with close events in
1950 and 1960, queried for 1960, has close year 1950 (the segment query takes
MIN over all `segment_close` years, not the latest at-or-before the query
year), so rule 2 fires and the segment is excluded instead of `closed`. -/
theorem segment_two_closes_excluded_cex :
    segCloseYear exSegC3 (twoCloseEvents "SEG3" 1900 1950 1960) = some 1950 ∧
    segStateLabel exSegC3 (twoCloseEvents "SEG3" 1900 1950 1960) 1960 = none ∧
    segStateLabel exSegC3 (twoCloseEvents "SEG3" 1900 1950 1960) 1960 ≠
      some RState.closed := by decide

/-- C3 (corrected): the segment query's close year is the earliest (minimum)
`segment_close` year over all events, regardless of the query year. A segment
with a qualifying open event (year ≤ y2) and two close events in years
y1 < y2, queried for y2, has close year y1 and is excluded by rule 2 — it does
not resolve to `closed`. -/
theorem segment_close_year_is_earliest_excluded (sg : RawSegment) (o y1 y2 : Int)
    (h12 : y1 < y2) (ho : o ≤ y2) :
    segCloseYear sg (twoCloseEvents sg.segment_id o y1 y2) = some y1 ∧
    segStateLabel sg (twoCloseEvents sg.segment_id o y1 y2) y2 = none := by
  have hclose : segCloseYear sg (twoCloseEvents sg.segment_id o y1 y2) = some (min y1 y2) := by
    unfold segCloseYear twoCloseEvents mkSegEvent
    simp [List.filter, minYear?]
  have hcy : segCloseYear sg (twoCloseEvents sg.segment_id o y1 y2) = some y1 := by
    rw [hclose, min_eq_left h12.le]
  have hopen : segOpenYear sg (twoCloseEvents sg.segment_id o y1 y2) = some o := by
    unfold segOpenYear twoCloseEvents mkSegEvent
    simp [List.filter, minYear?]
  refine ⟨hcy, ?_⟩
  unfold segStateLabel
  rw [hcy, hopen]
  split_ifs with h1 h2 <;> simp_all [closeLt] <;> omega

/-- Witness for the corrected C3: open 1900, closes 1950 and 1960, queried for
1960 — close year 1950 and exclusion. -/
theorem segment_close_year_is_earliest_excluded_witness :
    segCloseYear exSegC3 (twoCloseEvents exSegC3.segment_id 1900 1950 1960) = some 1950 ∧
    segStateLabel exSegC3 (twoCloseEvents exSegC3.segment_id 1900 1950 1960) 1960 = none :=
  segment_close_year_is_earliest_excluded exSegC3 1900 1950 1960 (by decide) (by decide)

/-- Counterexample to C4 as stated: a station with a `station_close` event in
1900 (< 2000), no open event and no `created_at` is NOT excluded at year 2000 —
the station CASE tests the `planned` rules first, so it resolves to `planned`
and is included in the result set. -/
theorem station_close_preempted_by_planned_cex :
    stationCloseYear exStationC4 exEventsC4 = some 1900 ∧ (1900 : Int) < 2000 ∧
    stationStateLabel exStationC4 exEventsC4 2000 = some RState.planned := by decide

/-- C4 (corrected): closure dominance holds only below the `planned` rules. If
the close year is defined and before the query year AND neither planned rule
fires (station: an open event or `created_at` exists and the effective open
year is at most the query year; segment: the query year is at least the
coalesced open year), the entity is excluded regardless of its other fields. A
station with no open event and no `created_at` is instead reported `planned`
even when it closed long before the query year (see the counterexample). -/
theorem closure_dominance_under_open_guard
    (st : RawStation) (evs : List Event) (sg : RawSegment) (evs2 : List Event)
    (year year2 c c2 : Int)
    (hc : stationCloseYear st evs = some c) (hlt : c < year)
    (hng : ¬(stationOpenYear st evs = none ∧ st.created_at_year = none))
    (heff : effectiveOpenYear st evs ≤ year)
    (hc2 : segCloseYear sg evs2 = some c2) (hlt2 : c2 < year2)
    (hop2 : (segOpenYear sg evs2).getD 0 ≤ year2) :
    stationStateLabel st evs year = none ∧ segStateLabel sg evs2 year2 = none := by
  constructor
  · unfold stationStateLabel
    rw [hc]
    split_ifs <;> simp_all [closeLt] <;> omega
  · unfold segStateLabel
    rw [hc2]
    split_ifs <;> simp_all [closeLt] <;> omega

/-- Witness for the corrected C4: a station opened 1900 and closed 1950 and a
segment opened 1900 and closed 1950 are both excluded at year 2000. -/
theorem closure_dominance_under_open_guard_witness :
    stationStateLabel exStationC4w exEventsC4w 2000 = none ∧
    segStateLabel exSegC4w exEventsC4ws 2000 = none :=
  closure_dominance_under_open_guard exStationC4w exEventsC4w exSegC4w exEventsC4ws
    2000 2000 1950 1950 (by decide) (by decide) (by decide) (by decide)
    (by decide) (by decide) (by decide)

theorem suffix_eq (k : Nat) :
    (if k + 1 > 1 then "_" ++ toString k else "") = (if k = 0 then "" else "_" ++ toString k) := by
  split_ifs <;> first | rfl | omega

theorem buildAltNameMapAux_spec (names : List NameEntry) :
    ∀ seen : List (String × String),
      buildAltNameMapAux names (fun l => seen.countP (fun p => p.2 == l)) =
        specAssign (keptPairs names) seen := by
  induction names with
  | nil => intro seen; rfl
  | cons e rest ih =>
    intro seen
    obtain ⟨en, el⟩ := e
    cases en with
    | none => simpa [buildAltNameMapAux, keptPairs, falsyStr] using ih seen
    | some n =>
      cases el with
      | none => simpa [buildAltNameMapAux, keptPairs, falsyStr] using ih seen
      | some l =>
        by_cases hn : n = ""
        · subst hn
          simpa [buildAltNameMapAux, keptPairs, falsyStr] using ih seen
        · by_cases hl : l = ""
          · subst hl
            simpa [buildAltNameMapAux, keptPairs, falsyStr, hn] using ih seen
          · have hfun : (fun x => if x = l then seen.countP (fun p => p.2 == l) + 1
                else seen.countP (fun p => p.2 == x)) =
                (fun x => (seen ++ [(n, l)]).countP (fun p => p.2 == x)) := by
              funext x
              by_cases hx : x = l
              · subst hx; simp [List.countP_append, List.countP_cons]
              · have hlx : l ≠ x := Ne.symm hx
                simp [List.countP_append, List.countP_cons, beq_iff_eq, hx, hlx]
            have hcond : (n == "" || l == "") = false := by simp [hn, hl]
            simp only [buildAltNameMapAux, keptPairs, List.filterMap_cons, falsyStr,
              specAssign, specKey, hcond, hn, hl, or_self, if_false, Bool.false_eq_true]
            rw [suffix_eq, hfun]
            refine congrArg _ ?_
            simpa only [keptPairs] using ih (seen ++ [(n, l)])

/-- C5 (confirmed): `buildAltNameMap` assigns `name:<language>` to the first kept
record of each language and `name:<language>_<n>` to the n-th subsequent one,
in input order, skipping records whose name or language is absent or empty
(JavaScript-falsy); in particular the spec's example input produces exactly the
spec's example map. -/
theorem alt_name_dedup_suffixing :
    (∀ names : List NameEntry,
      buildAltNameMap names = specAssign (keptPairs names) []) ∧
    buildAltNameMap
      [{ name := some "A", language := some "ru" },
       { name := some "B", language := some "ru" },
       { name := some "C", language := some "en" }] =
      [("name:ru", "A"), ("name:ru_1", "B"), ("name:en", "C")] := by
  constructor
  · intro names
    simpa [buildAltNameMap] using buildAltNameMapAux_spec names []
  · decide

theorem normalizeGeometry_jarr (l : List JSValue) :
    normalizeGeometry (.jarr l) = l.filterMap keepPair := rfl

theorem keepPair_flat (p : Rat × Rat) : keepPair (flatPairEnc p) = some p := rfl

theorem keepPair_keyedF (p : Rat × Rat) : keepPair (keyedPairEncF p) = some p := rfl

theorem keepPair_keyedGeo (p : Rat × Rat) : keepPair (keyedPairEncGeo p) = some p := rfl

theorem norm_map_enc (enc : Rat × Rat → JSValue) (h : ∀ p, keepPair (enc p) = some p)
    (ps : List (Rat × Rat)) : normalizeGeometry (.jarr (ps.map enc)) = ps := by
  induction ps with
  | nil => rfl
  | cons p t ih =>
    rw [normalizeGeometry_jarr] at ih ⊢
    rw [List.map_cons]
    simp only [List.filterMap_cons, h p]
    rw [ih]

theorem norm_wrapped_eq (ps : List (Rat × Rat)) :
    normalizeGeometry (wrappedFeature ps) = normalizeGeometry (flatPairs ps) := rfl

/-- C6 (confirmed): a path given as a flat pair list, as `f0`/`f1` keyed records,
as `lat`/`lon` keyed records, or wrapped in a single-feature GeoJSON document
normalizes in all four cases to the same ordered pair sequence. -/
theorem geometry_round_trip (ps : List (Rat × Rat)) :
    normalizeGeometry (flatPairs ps) = ps ∧
    normalizeGeometry (keyedPairsF ps) = ps ∧
    normalizeGeometry (keyedPairsGeo ps) = ps ∧
    normalizeGeometry (wrappedFeature ps) = ps :=
  ⟨norm_map_enc flatPairEnc keepPair_flat ps,
   norm_map_enc keyedPairEncF keepPair_keyedF ps,
   norm_map_enc keyedPairEncGeo keepPair_keyedGeo ps,
   (norm_wrapped_eq ps).trans (norm_map_enc flatPairEnc keepPair_flat ps)⟩

theorem isStrEq_false_of_falsy (v : JSValue) (s : String) (hs : s ≠ "")
    (h : truthy v = false) : isStrEq v s = false := by
  cases v <;> simp_all [truthy, isStrEq]
  exact fun hc => hs hc.symm

/-- C7 (confirmed): the normalizer drops exactly the elements that do not coerce
to two finite numbers — removing a bad element never discards the rest, the
surviving pairs keep their input order (normalization distributes over list
concatenation), and an unrecognized top-level shape (a number, a boolean, null,
undefined, or an object with a falsy `type`) yields the empty sequence. -/
theorem geometry_malformed_tolerance (l1 l2 : List JSValue) (e : JSValue)
    (he : keepPair e = none) :
    normalizeGeometry (.jarr (l1 ++ e :: l2)) = normalizeGeometry (.jarr (l1 ++ l2)) ∧
    normalizeGeometry (.jarr (l1 ++ l2)) =
      normalizeGeometry (.jarr l1) ++ normalizeGeometry (.jarr l2) ∧
    (∀ q : Rat, normalizeGeometry (.jnum q) = []) ∧
    (∀ b : Bool, normalizeGeometry (.jbool b) = []) ∧
    normalizeGeometry .jnull = [] ∧
    normalizeGeometry .jundefined = [] ∧
    (∀ kvs : List (String × JSValue), truthy (getProp (.jobj kvs) "type") = false →
      normalizeGeometry (.jobj kvs) = []) := by
  refine ⟨?_, ?_, ?_, ?_, rfl, rfl, ?_⟩
  · simp [normalizeGeometry_jarr, List.filterMap_append, List.filterMap_cons, he]
  · simp [normalizeGeometry_jarr, List.filterMap_append]
  · intro q
    by_cases hq : q = 0
    · subst hq; rfl
    · simp [normalizeGeometry, truthy, unwrapDoc, hq]
  · intro b; cases b <;> rfl
  · intro kvs htype
    have hfeat : featureCond kvs = false := by
      unfold featureCond
      rw [isStrEq_false_of_falsy _ _ (by decide) htype]
      rfl
    have hfc : fcCond kvs = false := by
      unfold fcCond
      rw [isStrEq_false_of_falsy _ _ (by decide) htype]
      rfl
    have hbare : bareCond kvs = false := by
      unfold bareCond
      rw [htype]
      rfl
    simp [normalizeGeometry, unwrapDoc, truthy, hfeat, hfc, hbare]

/-- Witness for C7: dropping the undefined element from a two-element geometry
list leaves the surviving flat pair intact. -/
theorem geometry_malformed_tolerance_witness :
    normalizeGeometry (.jarr ([flatPairEnc (1, 2)] ++ JSValue.jundefined :: [])) =
      normalizeGeometry (.jarr ([flatPairEnc (1, 2)] ++ [])) :=
  (geometry_malformed_tolerance [flatPairEnc (1, 2)] [] JSValue.jundefined rfl).1

/-- C10 (confirmed): every station in the resolved-stations collection has
non-null latitude and longitude — the year query filters stations with a NULL
coordinate out before resolution. -/
theorem resolved_stations_have_coordinates (stations : List RawStation) (evs : List Event)
    (names : List NameRow) (year : Int) (s : StationWithState)
    (hs : s ∈ queryStationsForYear stations evs names year) :
    s.lat.isSome ∧ s.lon.isSome := by
  unfold queryStationsForYear at hs
  rcases List.mem_filterMap.mp hs with ⟨raw, hraw, heq⟩
  rcases List.mem_filter.mp hraw with ⟨-, hpred⟩
  rw [Bool.and_eq_true] at hpred
  cases h : stationStateLabel raw evs year with
  | none => rw [h] at heq; simp at heq
  | some st =>
    rw [h] at heq
    simp only [Option.some.injEq] at heq
    subst heq
    exact ⟨hpred.1, hpred.2⟩

/-- Witness for C10: the single resolved station of a concrete query has both
coordinates present. -/
theorem resolved_stations_have_coordinates_witness :
    exResolvedC10.lat.isSome ∧ exResolvedC10.lon.isSome :=
  resolved_stations_have_coordinates [exStationC10] exEventsC10 [] 2000 exResolvedC10
    (by decide)
